import Mathlib

/-!
Verification development for the equity-research pipeline in `src/app.py`.

The program is a single-page tool: it resolves API credentials, picks a
generative model, fetches three years of financial-statement data for a
ticker, fetches news snippets, and prompts a model for a report.  The
definitions below are a shallow embedding of that script: pure Python
string and arithmetic operations become Lean functions on `List Char`,
`String` and `ℚ`; each external provider is a parameter of the embedding
(its possible behaviours are values of an explicit type, with raised
exceptions represented by `Except.error` / dedicated constructors); the
Streamlit control flow of the button handler becomes a function from the
environment to the list of provider calls made and the list of UI
messages shown.
-/

namespace EquityResearch

/-! ### Python string primitives

`ticker.upper().strip().replace(" ", "")` and the `.NS` suffix logic of
`get_financials` (src/app.py lines 91-93).  Characters are modelled as
Lean `Char` (Unicode code points); `upper` is modelled on the ASCII
letters it affects in ticker symbols. -/

/-- Lowercase ASCII letters. -/
def lcLetters : List Char :=
  ['a','b','c','d','e','f','g','h','i','j','k','l','m',
   'n','o','p','q','r','s','t','u','v','w','x','y','z']

/-- Uppercase ASCII letters. -/
def ucLetters : List Char :=
  ['A','B','C','D','E','F','G','H','I','J','K','L','M',
   'N','O','P','Q','R','S','T','U','V','W','X','Y','Z']

/-- Model of Python `str.upper` on a single character (ASCII range): a
lowercase letter is shifted down by 32 code points, everything else is
unchanged. -/
def pyUpperC (c : Char) : Char :=
  if c ∈ lcLetters then Char.ofNat (c.toNat - 32) else c

/-- Whitespace characters removed by Python `str.strip` (ASCII set). -/
def pyIsSpace (c : Char) : Bool :=
  c == ' ' || c == '\t' || c == '\n' || c == '\r' || c == '\x0b' || c == '\x0c'

/-- Remove trailing whitespace (the right half of Python `str.strip`). -/
def dropTrailing (l : List Char) : List Char :=
  (l.reverse.dropWhile pyIsSpace).reverse

/-- Model of Python `str.strip` with no argument. -/
def pyStrip (l : List Char) : List Char :=
  dropTrailing (l.dropWhile pyIsSpace)

/-- Model of Python `.replace(" ", "")`: remove every space character. -/
def removeSpaces (l : List Char) : List Char :=
  l.filter (fun c => !(c == ' '))

/-- The fixed NSE market suffix appended by `get_financials`. -/
def nsSuffix : List Char := ['.', 'N', 'S']

/-- Ticker normalization of src/app.py lines 91-93:
`t = ticker.upper().strip().replace(" ", "")`, then append `".NS"`
unless the string already ends with it. -/
def pyNormalize (l : List Char) : List Char :=
  let t := removeSpaces (pyStrip (l.map pyUpperC))
  if nsSuffix <:+ t then t else t ++ nsSuffix

/-- String-level wrapper of `pyNormalize`. -/
def normalizeTicker (s : String) : String :=
  ⟨pyNormalize s.data⟩

/-- String-level model of Python `str.upper` (applied to the ticker text
input at src/app.py line 155). -/
def pyUpperStr (s : String) : String :=
  ⟨s.data.map pyUpperC⟩

/-! ### Facts about the string primitives -/

-- Either `pyUpperC` leaves a character unchanged, or the character is a
-- lowercase letter mapped to an uppercase letter.
lemma pyUpperC_cases (c : Char) :
    pyUpperC c = c ∨ pyUpperC c ∈ ucLetters := by
  by_cases hc : c ∈ lcLetters
  · right; fin_cases hc <;> decide
  · left; unfold pyUpperC; rw [if_neg hc]

-- Uppercase letters are fixed points of `pyUpperC`.
lemma pyUpperC_uc_fixed (u : Char) (hu : u ∈ ucLetters) : pyUpperC u = u := by
  fin_cases hu <;> rfl

-- `pyUpperC` is idempotent character by character.
lemma pyUpperC_idem (c : Char) : pyUpperC (pyUpperC c) = pyUpperC c := by
  rcases pyUpperC_cases c with h | h
  · rw [h]; exact h
  · exact pyUpperC_uc_fixed _ h

-- The head of a `dropWhile` result does not satisfy the predicate.
lemma dropWhile_head_not (p : Char → Bool) :
    ∀ (l : List Char) (c : Char) (rest : List Char),
      l.dropWhile p = c :: rest → p c = false := by
  intro l
  induction l with
  | nil => intro c rest h; simp [List.dropWhile] at h
  | cons a t ih =>
    intro c rest h
    cases ha : p a with
    | true =>
      rw [List.dropWhile_cons_of_pos ha] at h
      exact ih c rest h
    | false =>
      rw [List.dropWhile_cons_of_neg (by simp [ha])] at h
      cases h
      exact ha

-- `dropTrailing l` is a prefix of `l`; the removed tail is the maximal
-- run of trailing whitespace.
lemma dropTrailing_append (l : List Char) :
    dropTrailing l ++ (l.reverse.takeWhile pyIsSpace).reverse = l := by
  unfold dropTrailing
  calc (l.reverse.dropWhile pyIsSpace).reverse
        ++ (l.reverse.takeWhile pyIsSpace).reverse
      = (l.reverse.takeWhile pyIsSpace ++ l.reverse.dropWhile pyIsSpace).reverse := by
        rw [List.reverse_append]
    _ = l.reverse.reverse := by rw [List.takeWhile_append_dropWhile]
    _ = l := List.reverse_reverse l

-- The first character surviving `pyStrip` is not whitespace.
lemma pyStrip_head_not (l : List Char) (c : Char) (rest : List Char)
    (h : pyStrip l = c :: rest) : pyIsSpace c = false := by
  unfold pyStrip at h
  have h2 := dropTrailing_append (l.dropWhile pyIsSpace)
  rw [h] at h2
  simp only [List.cons_append] at h2
  exact dropWhile_head_not pyIsSpace l c _ h2.symm

lemma mem_dropTrailing {c : Char} {l : List Char}
    (h : c ∈ dropTrailing l) : c ∈ l := by
  have h2 := dropTrailing_append l
  rw [← h2]
  exact List.mem_append_left _ h

lemma mem_pyStrip {c : Char} {l : List Char} (h : c ∈ pyStrip l) : c ∈ l := by
  unfold pyStrip at h
  have h1 : c ∈ l.dropWhile pyIsSpace := mem_dropTrailing h
  have h3 : l.takeWhile pyIsSpace ++ l.dropWhile pyIsSpace = l :=
    List.takeWhile_append_dropWhile pyIsSpace l
  rw [← h3]
  exact List.mem_append_right _ h1

lemma map_eq_self_of {f : Char → Char} :
    ∀ l : List Char, (∀ c ∈ l, f c = c) → l.map f = l := by
  intro l h
  induction l with
  | nil => rfl
  | cons a t ih =>
    simp only [List.map_cons]
    rw [h a (by simp), ih (fun c hc => h c (by simp [hc]))]

-- A character that is not whitespace is in particular not a space, so the
-- `replace(" ", "")` filter keeps it.
lemma not_space_of_not_ws {c : Char} (h : pyIsSpace c = false) :
    (c == ' ') = false := by
  unfold pyIsSpace at h
  cases hc : c == ' '
  · rfl
  · rw [hc] at h; simp at h

/-- Structural facts satisfied by every output of `pyNormalize`: all its
characters are fixed by upper-casing, none is a space, it ends with
`".NS"`, and its first character is not whitespace. -/
def NormalOut (r : List Char) : Prop :=
  (∀ c ∈ r, pyUpperC c = c) ∧
  (∀ c ∈ r, (c == ' ') = false) ∧
  (∃ pre, pre ++ nsSuffix = r) ∧
  (∀ c rest, r = c :: rest → pyIsSpace c = false)

-- Helper: facts about the core `removeSpaces (pyStrip (map pyUpperC l))`.
lemma core_facts (l : List Char) :
    (∀ c ∈ removeSpaces (pyStrip (l.map pyUpperC)), pyUpperC c = c) ∧
    (∀ c ∈ removeSpaces (pyStrip (l.map pyUpperC)), (c == ' ') = false) ∧
    (∀ c rest, removeSpaces (pyStrip (l.map pyUpperC)) = c :: rest →
      pyIsSpace c = false) := by
  refine ⟨?_, ?_, ?_⟩
  · intro c hc
    have h1 : c ∈ pyStrip (l.map pyUpperC) := List.mem_of_mem_filter hc
    have h2 : c ∈ l.map pyUpperC := mem_pyStrip h1
    rcases List.mem_map.mp h2 with ⟨c0, _, rfl⟩
    exact pyUpperC_idem c0
  · intro c hc
    have hp := List.of_mem_filter hc
    simpa using hp
  · intro c rest h
    cases hs : pyStrip (l.map pyUpperC) with
    | nil => rw [hs] at h; simp [removeSpaces] at h
    | cons a t =>
      have ha : pyIsSpace a = false := pyStrip_head_not _ a t hs
      have hka : (a == ' ') = false := not_space_of_not_ws ha
      rw [hs] at h
      unfold removeSpaces at h
      rw [List.filter_cons] at h
      rw [hka] at h
      simp only [Bool.not_false, if_pos] at h
      cases h
      exact ha

-- Every output of `pyNormalize` satisfies the structural facts.
lemma pyNormalize_normalOut (l : List Char) : NormalOut (pyNormalize l) := by
  unfold pyNormalize
  obtain ⟨hfix, hsp, hhead⟩ := core_facts l
  set t := removeSpaces (pyStrip (l.map pyUpperC)) with ht
  by_cases hs : nsSuffix <:+ t
  · rw [if_pos hs]
    obtain ⟨pre, hpre⟩ := hs
    refine ⟨hfix, hsp, ⟨pre, hpre⟩, hhead⟩
  · rw [if_neg hs]
    have hns_fix : ∀ c ∈ nsSuffix, pyUpperC c = c := by decide
    have hns_sp : ∀ c ∈ nsSuffix, (c == ' ') = false := by decide
    refine ⟨?_, ?_, ⟨t, rfl⟩, ?_⟩
    · intro c hc
      rcases List.mem_append.mp hc with h | h
      · exact hfix c h
      · exact hns_fix c h
    · intro c hc
      rcases List.mem_append.mp hc with h | h
      · exact hsp c h
      · exact hns_sp c h
    · intro c rest h
      cases htc : t with
      | nil =>
        rw [htc] at h
        simp only [List.nil_append] at h
        have : c = '.' := by
          have := h.symm
          rw [show nsSuffix = '.' :: ['N', 'S'] from rfl] at this
          cases this; rfl
        rw [this]; rfl
      | cons a t0 =>
        have ha := hhead a t0 htc
        rw [htc] at h
        simp only [List.cons_append] at h
        cases h
        exact ha

-- Outputs of `pyNormalize` are fixed points of `pyNormalize`.
lemma pyNormalize_fixed {r : List Char} (hr : NormalOut r) :
    pyNormalize r = r := by
  obtain ⟨hfix, hsp, ⟨pre, hpre⟩, hhead⟩ := hr
  have hmap : r.map pyUpperC = r := map_eq_self_of r hfix
  have hne : r ≠ [] := by
    intro h0
    rw [h0] at hpre
    have := List.append_eq_nil.mp hpre
    simp [nsSuffix] at this
  obtain ⟨c, rest, hr0⟩ := List.exists_cons_of_ne_nil hne
  have hcws : pyIsSpace c = false := hhead c rest hr0
  have hdropF : r.dropWhile pyIsSpace = r := by
    rw [hr0]
    exact List.dropWhile_cons_of_neg (by simp [hcws])
  have hrevS : r.reverse = 'S' :: ('N' :: ('.' :: pre.reverse)) := by
    rw [← hpre]
    simp [nsSuffix]
  have hdropT : dropTrailing r = r := by
    unfold dropTrailing
    rw [hrevS]
    rw [List.dropWhile_cons_of_neg (by simp [pyIsSpace])]
    rw [← hrevS, List.reverse_reverse]
  have hstrip : pyStrip r = r := by
    unfold pyStrip
    rw [hdropF, hdropT]
  have hfilter : removeSpaces r = r := by
    unfold removeSpaces
    rw [List.filter_eq_self.mpr]
    intro a ha
    simp [hsp a ha]
  have hsuf : nsSuffix <:+ r := ⟨pre, hpre⟩
  unfold pyNormalize
  rw [hmap, hstrip, hfilter]
  rw [if_pos hsuf]

/-- Claim C7: Ticker normalization (uppercase, strip, remove spaces, append the
`.NS` suffix when not already present) is idempotent: applying it twice
equals applying it once, for every input string; in particular the
already-normalized ticker `"TCS.NS"` is returned unchanged. -/
theorem normalize_idempotent :
    (∀ l : List Char, pyNormalize (pyNormalize l) = pyNormalize l) ∧
    normalizeTicker (normalizeTicker "TCS.NS") = normalizeTicker "TCS.NS" ∧
    normalizeTicker "TCS.NS" = "TCS.NS" := by
  refine ⟨fun l => pyNormalize_fixed (pyNormalize_normalOut l), ?_, ?_⟩
  · decide
  · decide

/-! ### Rounding

Python `round(x, ndigits)` uses round-half-to-even.  Monetary values are
embedded as exact rationals. -/

/-- Round-half-to-even on rationals, the semantics of Python `round`. -/
def pyRound (x : ℚ) : ℤ :=
  if x - (⌊x⌋ : ℚ) < 1/2 then ⌊x⌋
  else if 1/2 < x - (⌊x⌋ : ℚ) then ⌊x⌋ + 1
  else if ⌊x⌋ % 2 = 0 then ⌊x⌋ else ⌊x⌋ + 1

/-- Model of Python `round(x, 0)` (result stays numeric). -/
def pyRound0 (x : ℚ) : ℚ := (pyRound x : ℚ)

/-- Model of Python `round(x, 1)`: round to one decimal place. -/
def pyRound1 (x : ℚ) : ℚ := (pyRound (x * 10) : ℚ) / 10

/-! ### Financial data model (`get_financials`, src/app.py lines 85-138)

A reporting date carries its calendar year (what `strftime` with the
year format extracts) plus a disambiguating component, since two of the
most recent reporting timestamps can fall in the same calendar year.
Line-item lookups that raise in the source (`fin.loc[...]` with a
missing row) are `none`; a raising `stock.balance_sheet` access is
`Except.error`. -/

/-- A reporting-period timestamp: calendar year plus the rest of the date. -/
structure RDate where
  year : Nat
  sub : Nat
deriving DecidableEq

/-- One reporting column of the income statement: the period date and the
two line items the code reads (absent line item = raising lookup). -/
structure FinCol where
  date : RDate
  totalRevenue : Option ℚ
  netIncome : Option ℚ
deriving DecidableEq

/-- The income-statement table: its `empty` flag and its reporting
columns, most recent first. -/
structure FinTable where
  empty : Bool
  cols : List FinCol
deriving DecidableEq

/-- The balance-sheet table as the code consumes it: emptiness, presence
of the equity row, the column dates, and the cell values of the equity
row. -/
structure BSTable where
  empty : Bool
  hasEquityRow : Bool
  bcols : List RDate
  equityCell : RDate → ℚ

/-- Behaviour of the financial-data provider for one ticker: each table
access either raises or returns a table. -/
structure Stock where
  financials : Except String FinTable
  balance_sheet : Except Unit BSTable

/-- One derived snapshot entry: scaled revenue, scaled net profit, and
return-on-equity percentage. -/
structure Entry where
  revenue : ℚ
  pat : ℚ
  roe : ℚ
deriving DecidableEq

/-- The equity figure used for a column: the balance-sheet cell when the
table is non-empty, has the equity row, and has this reporting date as a
column; otherwise the sentinel default 1 (src/app.py lines 117-120). -/
def equityFor (b : BSTable) (d : RDate) : ℚ :=
  if b.empty = false ∧ b.hasEquityRow = true ∧ d ∈ b.bcols then b.equityCell d else 1

/-- Processing of one reporting column (the body of the `for date in
years` loop, src/app.py lines 110-130): any raising lookup makes the
whole column yield nothing (`continue`); otherwise the entry holds
`round(rev, 0)`, `round(pat, 0)` and `round(roe, 1)` with
`rev = r0/1e7`, `pat = p0/1e7`, `roe = (pat*1e7/equity)*100`. -/
def processColumn (bs : Except Unit BSTable) (c : FinCol) : Option (Nat × Entry) :=
  match c.totalRevenue, c.netIncome, bs with
  | some r0, some p0, Except.ok b =>
      some (c.date.year,
        { revenue := pyRound0 (r0 / 10000000)
          pat := pyRound0 (p0 / 10000000)
          roe := pyRound1 (p0 / 10000000 * 10000000 / equityFor b c.date * 100) })
  | _, _, _ => none

/-- Insertion into the snapshot dict `data[yr] = {...}`: replace the
entry at an existing key in place, else append. -/
def upsert (d : List (Nat × Entry)) (k : Nat) (v : Entry) : List (Nat × Entry) :=
  match d with
  | [] => [(k, v)]
  | (k0, v0) :: t => if k0 = k then (k, v) :: t else (k0, v0) :: upsert t k v

/-- One iteration of the `for date in years` loop acting on the dict. -/
def buildStep (bs : Except Unit BSTable) (d : List (Nat × Entry)) (c : FinCol) :
    List (Nat × Entry) :=
  match processColumn bs c with
  | none => d
  | some (y, e) => upsert d y e

/-- The whole loop over the selected columns, starting from `data = {}`. -/
def buildData (bs : Except Unit BSTable) (cols : List FinCol) : List (Nat × Entry) :=
  cols.foldl (buildStep bs) []

/-- A single-quote character, for error strings quoting the ticker. -/
def sq : String := ⟨[Char.ofNat 39]⟩

/-- The no-data error message of src/app.py line 104, naming the
normalized ticker. -/
def noDataMsg (t : String) : String :=
  "❌ No financial data found for " ++ sq ++ t ++ sq ++
    ". Check if the ticker is correct."

/-- The empty-parse error message of src/app.py line 133. -/
def parseErrMsg : String := "❌ Data found but could not parse Revenue/Profit."

/-- The fetch-failure message of src/app.py line 101. -/
def connectErrMsg (t : String) : String :=
  "Could not connect to Yahoo Finance for " ++ t

/-- Shallow embedding of `get_financials` (src/app.py lines 85-138).  The
provider is a function from the normalized ticker to that ticker's table
behaviours.  The source binds the normalized ticker and the `yf.Ticker`
handle once; the embedding repeats the pure lookups, which is
semantically identical.  The returned snapshot stands for the data the
source renders with `to_markdown()`. -/
def get_financials (ticker : String) (stocks : String → Stock) :
    Option (List (Nat × Entry)) × Option String :=
  match (stocks (normalizeTicker ticker)).financials with
  | Except.error _ => (none, some (connectErrMsg (normalizeTicker ticker)))
  | Except.ok fin =>
    if fin.empty then
      (none, some (noDataMsg (normalizeTicker ticker)))
    else
      if (buildData (stocks (normalizeTicker ticker)).balance_sheet
            (fin.cols.take 3)).isEmpty then
        (none, some parseErrMsg)
      else
        (some (buildData (stocks (normalizeTicker ticker)).balance_sheet
          (fin.cols.take 3)), none)

/-! ### Facts about the snapshot construction -/

-- Columns whose processing fails contribute nothing to the fold.
lemma foldl_buildStep_filter (bs : Except Unit BSTable) :
    ∀ (cols : List FinCol) (acc : List (Nat × Entry)),
      cols.foldl (buildStep bs) acc =
        (cols.filter fun c => (processColumn bs c).isSome).foldl (buildStep bs) acc := by
  intro cols
  induction cols with
  | nil => intro acc; rfl
  | cons c t ih =>
    intro acc
    rw [List.foldl_cons, List.filter_cons]
    cases hp : processColumn bs c with
    | none =>
      have hstep : buildStep bs acc c = acc := by
        unfold buildStep; rw [hp]
      rw [hstep]
      simp only [hp, Option.isSome_none, Bool.false_eq_true, if_false]
      exact ih acc
    | some ye =>
      simp only [hp, Option.isSome_some, if_true]
      rw [List.foldl_cons]
      exact ih _

lemma upsert_length (k : Nat) (v : Entry) :
    ∀ d : List (Nat × Entry), (upsert d k v).length ≤ d.length + 1 := by
  intro d
  induction d with
  | nil => simp [upsert]
  | cons p t ih =>
    unfold upsert
    by_cases hk : p.1 = k
    · simp [hk]
    · simp only [hk, if_false]
      simp only [List.length_cons]
      omega

lemma foldl_buildStep_length (bs : Except Unit BSTable) :
    ∀ (cols : List FinCol) (acc : List (Nat × Entry)),
      (cols.foldl (buildStep bs) acc).length ≤ acc.length + cols.length := by
  intro cols
  induction cols with
  | nil => intro acc; simp
  | cons c t ih =>
    intro acc
    rw [List.foldl_cons]
    have h1 := ih (buildStep bs acc c)
    have h2 : (buildStep bs acc c).length ≤ acc.length + 1 := by
      unfold buildStep
      cases hp : processColumn bs c with
      | none => exact Nat.le_succ acc.length
      | some ye =>
        obtain ⟨y, e⟩ := ye
        exact upsert_length y e acc
    simp only [List.length_cons]
    omega

/-- Claim C9: `get_financials` is total and its result is an exclusive
pair: for every ticker and every provider behaviour it returns either
(snapshot, no error) or (no snapshot, error message) — never both
present, never both absent. -/
theorem financials_exclusive_pair (ticker : String) (stocks : String → Stock) :
    ((get_financials ticker stocks).1.isSome = true ∧
      (get_financials ticker stocks).2 = none) ∨
    ((get_financials ticker stocks).1 = none ∧
      (get_financials ticker stocks).2.isSome = true) := by
  unfold get_financials
  cases (stocks (normalizeTicker ticker)).financials with
  | error e => right; simp
  | ok fin =>
    by_cases he : fin.empty = true
    · right; simp [he]
    · have he2 : fin.empty = false := by
        cases h : fin.empty
        · rfl
        · exact absurd h he
      by_cases hd : (buildData (stocks (normalizeTicker ticker)).balance_sheet
          (fin.cols.take 3)).isEmpty = true
      · right; simp [he2, hd]
      · have hd2 : (buildData (stocks (normalizeTicker ticker)).balance_sheet
            (fin.cols.take 3)).isEmpty = false := by
          cases h : (buildData (stocks (normalizeTicker ticker)).balance_sheet
              (fin.cols.take 3)).isEmpty
          · rfl
          · exact absurd h hd
        left; simp [he2, hd2]

/-- Claim C5: for every successfully parsed reporting column, revenue and
net profit are the raw values divided by 10,000,000 and rounded to whole
units (a raw 100,000,000 yields 10), and return-on-equity is
(raw net profit / equity) × 100 rounded to one decimal place. -/
theorem column_scaling (bs : Except Unit BSTable) (c : FinCol) (ye : Nat × Entry)
    (h : processColumn bs c = some ye) :
    (∃ r0 p0 b, c.totalRevenue = some r0 ∧ c.netIncome = some p0 ∧
      bs = Except.ok b ∧
      ye = (c.date.year,
        { revenue := pyRound0 (r0 / 10000000)
          pat := pyRound0 (p0 / 10000000)
          roe := pyRound1 (p0 / equityFor b c.date * 100) })) ∧
    pyRound0 ((100000000 : ℚ) / 10000000) = 10 := by
  constructor
  · unfold processColumn at h
    cases hr : c.totalRevenue with
    | none => rw [hr] at h; cases h
    | some r0 =>
      cases hp : c.netIncome with
      | none => rw [hr, hp] at h; cases h
      | some p0 =>
        cases hb : bs with
        | error u => rw [hr, hp, hb] at h; cases h
        | ok b =>
          rw [hr, hp, hb] at h
          refine ⟨r0, p0, b, rfl, rfl, rfl, ?_⟩
          injection h with h2
          rw [← h2]
          have harith : p0 / 10000000 * 10000000 / equityFor b c.date * 100
              = p0 / equityFor b c.date * 100 := by
            rw [div_mul_cancel₀ p0 (by norm_num : (10000000 : ℚ) ≠ 0)]
          rw [harith]
  · have h : (100000000 : ℚ) / 10000000 = 10 := by norm_num
    rw [h]
    norm_num [pyRound0, pyRound]

-- Characterization of a successfully processed column.
lemma processColumn_some (b : BSTable) (c : FinCol) (r0 p0 : ℚ)
    (h1 : c.totalRevenue = some r0) (h2 : c.netIncome = some p0) :
    processColumn (Except.ok b) c =
      some (c.date.year,
        { revenue := pyRound0 (r0 / 10000000)
          pat := pyRound0 (p0 / 10000000)
          roe := pyRound1 (p0 / 10000000 * 10000000 / equityFor b c.date * 100) }) := by
  unfold processColumn
  rw [h1, h2]

/-- Claim C3: a per-column failure only skips that column (the snapshot
fold over the selected columns equals the fold over the successfully
processed ones, so entries for other years are intact and nothing
raises); when the balance-sheet equity figure is unavailable,
return-on-equity is computed against the sentinel equity 1, i.e. it is
the raw net profit times 100; a completely empty parsed result is
surfaced as the user-facing parse error. -/
theorem partial_columns_safe :
    (∀ (bs : Except Unit BSTable) (cols : List FinCol),
      buildData bs cols =
        buildData bs (cols.filter fun c => (processColumn bs c).isSome)) ∧
    (∀ (b : BSTable) (c : FinCol) (r0 p0 : ℚ),
      c.totalRevenue = some r0 → c.netIncome = some p0 →
      (b.empty = true ∨ b.hasEquityRow = false ∨ c.date ∉ b.bcols) →
      processColumn (Except.ok b) c =
        some (c.date.year,
          { revenue := pyRound0 (r0 / 10000000)
            pat := pyRound0 (p0 / 10000000)
            roe := pyRound1 (p0 * 100) })) ∧
    (∀ (ticker : String) (stocks : String → Stock) (fin : FinTable),
      (stocks (normalizeTicker ticker)).financials = Except.ok fin →
      fin.empty = false →
      buildData (stocks (normalizeTicker ticker)).balance_sheet
        (fin.cols.take 3) = [] →
      get_financials ticker stocks = (none, some parseErrMsg)) := by
  refine ⟨?_, ?_, ?_⟩
  · intro bs cols
    unfold buildData
    exact foldl_buildStep_filter bs cols []
  · intro b c r0 p0 h1 h2 h3
    have heq : equityFor b c.date = 1 := by
      unfold equityFor
      rw [if_neg]
      rintro ⟨he, hr, hm⟩
      rcases h3 with h | h | h
      · rw [h] at he; cases he
      · rw [h] at hr; cases hr
      · exact h hm
    rw [processColumn_some b c r0 p0 h1 h2, heq]
    have harith : p0 / 10000000 * 10000000 / 1 * 100 = p0 * 100 := by
      rw [div_mul_cancel₀ p0 (by norm_num : (10000000 : ℚ) ≠ 0), div_one]
    rw [harith]
  · intro ticker stocks fin hfin hemp hdat
    unfold get_financials
    cases hgen : (stocks (normalizeTicker ticker)).financials with
    | error e =>
      rw [hgen] at hfin
      cases hfin
    | ok fin2 =>
      rw [hgen] at hfin
      injection hfin with hfin2
      subst hfin2
      simp [hemp, hdat]

/-- Claim C10: the snapshot is keyed by the calendar year of each
reporting date, holds at most three entries (only the first three
columns are processed), and when two processed columns carry the same
calendar year the later-processed one overwrites the entry of the
earlier one, so the snapshot can hold fewer entries than columns
processed. -/
theorem snapshot_year_keyed :
    (∀ (ticker : String) (stocks : String → Stock),
      ((get_financials ticker stocks).1.getD []).length ≤ 3) ∧
    (∀ (bs : Except Unit BSTable) (c : FinCol) (y : Nat) (e : Entry),
      processColumn bs c = some (y, e) → y = c.date.year) ∧
    (∀ (bs : Except Unit BSTable) (c1 c2 : FinCol) (y : Nat) (e1 e2 : Entry),
      processColumn bs c1 = some (y, e1) → processColumn bs c2 = some (y, e2) →
      buildData bs [c1, c2] = [(y, e2)]) := by
  refine ⟨?_, ?_, ?_⟩
  · intro ticker stocks
    unfold get_financials
    cases (stocks (normalizeTicker ticker)).financials with
    | error e => simp
    | ok fin =>
      by_cases he : fin.empty = true
      · simp [he]
      · have he2 : fin.empty = false := by
          cases h : fin.empty
          · rfl
          · exact absurd h he
        by_cases hd : (buildData (stocks (normalizeTicker ticker)).balance_sheet
            (fin.cols.take 3)).isEmpty = true
        · simp [he2, hd]
        · have hd2 : (buildData (stocks (normalizeTicker ticker)).balance_sheet
              (fin.cols.take 3)).isEmpty = false := by
            cases h : (buildData (stocks (normalizeTicker ticker)).balance_sheet
                (fin.cols.take 3)).isEmpty
            · rfl
            · exact absurd h hd
          simp only [he2, Bool.false_eq_true, if_false, hd2, Option.getD_some]
          have hlen := foldl_buildStep_length
            (stocks (normalizeTicker ticker)).balance_sheet (fin.cols.take 3) []
          have htake : (fin.cols.take 3).length ≤ 3 := by
            rw [List.length_take]
            exact Nat.min_le_left 3 fin.cols.length
          unfold buildData
          simp only [List.length_nil] at hlen
          omega
  · intro bs c y e h
    unfold processColumn at h
    cases hr : c.totalRevenue with
    | none => rw [hr] at h; cases h
    | some r0 =>
      cases hp : c.netIncome with
      | none => rw [hr, hp] at h; cases h
      | some p0 =>
        cases hb : bs with
        | error u => rw [hr, hp, hb] at h; cases h
        | ok b =>
          rw [hr, hp, hb] at h
          injection h with h2
          have := congrArg Prod.fst h2
          simpa using this.symm
  · intro bs c1 c2 y e1 e2 h1 h2
    unfold buildData
    rw [List.foldl_cons, List.foldl_cons, List.foldl_nil]
    have s1 : buildStep bs [] c1 = [(y, e1)] := by
      unfold buildStep; rw [h1]; rfl
    rw [s1]
    unfold buildStep
    rw [h2]
    show upsert [(y, e1)] y e2 = [(y, e2)]
    unfold upsert
    simp

/-! ### Concrete fixtures used by the witnesses -/

/-- A concrete reporting date in calendar year 2023. -/
def d0 : RDate := ⟨2023, 0⟩

/-- A second reporting date falling in the same calendar year 2023. -/
def d1 : RDate := ⟨2023, 1⟩

/-- A parsable column: raw revenue 100,000,000, raw net income 50,000,000. -/
def c0 : FinCol := ⟨d0, some 100000000, some 50000000⟩

/-- A second parsable column in the same calendar year. -/
def c1 : FinCol := ⟨d1, some 200000000, some 50000000⟩

/-- A balance sheet with the equity row present for `d0` and `d1`. -/
def b0 : BSTable := ⟨false, true, [d0, d1], fun _ => 250000000⟩

/-- A balance sheet without the equity row. -/
def bNoEq : BSTable := ⟨false, false, [d0], fun _ => 250000000⟩

/-- An income statement that is non-empty but has no parsable column. -/
def finUnparsable : FinTable := ⟨false, [⟨d0, none, some 50000000⟩]⟩

/-- Provider behaviour serving `finUnparsable` for every ticker. -/
def stocksUnparsable : String → Stock :=
  fun _ => ⟨Except.ok finUnparsable, Except.ok b0⟩

lemma processColumn_c0 :
    processColumn (Except.ok b0) c0 = some (2023, ⟨10, 5, 20⟩) := by
  rw [processColumn_some b0 c0 100000000 50000000 rfl rfl]
  have heq : equityFor b0 c0.date = 250000000 := by
    unfold equityFor
    rw [if_pos]
    · rfl
    · exact ⟨rfl, rfl, by simp [b0, c0, d0]⟩
  have h1 : (100000000 : ℚ) / 10000000 = 10 := by norm_num
  have h2 : (50000000 : ℚ) / 10000000 = 5 := by norm_num
  rw [heq, h1, h2]
  have h3 : (5 : ℚ) * 10000000 / 250000000 * 100 = 20 := by norm_num
  rw [h3]
  norm_num [pyRound0, pyRound1, pyRound, c0, d0]

lemma processColumn_c1 :
    processColumn (Except.ok b0) c1 = some (2023, ⟨20, 5, 20⟩) := by
  rw [processColumn_some b0 c1 200000000 50000000 rfl rfl]
  have heq : equityFor b0 c1.date = 250000000 := by
    unfold equityFor
    rw [if_pos]
    · rfl
    · exact ⟨rfl, rfl, by simp [b0, c1, d1]⟩
  have h1 : (200000000 : ℚ) / 10000000 = 20 := by norm_num
  have h2 : (50000000 : ℚ) / 10000000 = 5 := by norm_num
  rw [heq, h1, h2]
  have h3 : (5 : ℚ) * 10000000 / 250000000 * 100 = 20 := by norm_num
  rw [h3]
  norm_num [pyRound0, pyRound1, pyRound, c1, d1]

/-- Witness for C5 at a concrete column: the scaling facts hold for the
parsed 2023 column with raw revenue 100,000,000. -/
theorem column_scaling_witness :
    (∃ r0 p0 b, c0.totalRevenue = some r0 ∧ c0.netIncome = some p0 ∧
      (Except.ok b0 : Except Unit BSTable) = Except.ok b ∧
      ((2023, (⟨10, 5, 20⟩ : Entry)) : Nat × Entry) = (c0.date.year,
        { revenue := pyRound0 (r0 / 10000000)
          pat := pyRound0 (p0 / 10000000)
          roe := pyRound1 (p0 / equityFor b c0.date * 100) })) ∧
    pyRound0 ((100000000 : ℚ) / 10000000) = 10 :=
  column_scaling (Except.ok b0) c0 (2023, ⟨10, 5, 20⟩) processColumn_c0

/-- Witness for C3 at concrete inputs: a column with the equity row
missing yields the sentinel-based entry; an unparsable table yields the
parse error; filtering out failing columns does not change the fold. -/
theorem partial_columns_witness :
    processColumn (Except.ok bNoEq) c0 =
      some (c0.date.year,
        { revenue := pyRound0 ((100000000 : ℚ) / 10000000)
          pat := pyRound0 ((50000000 : ℚ) / 10000000)
          roe := pyRound1 ((50000000 : ℚ) * 100) }) ∧
    get_financials "TCS" stocksUnparsable = (none, some parseErrMsg) := by
  constructor
  · exact partial_columns_safe.2.1 bNoEq c0 100000000 50000000 rfl rfl
      (Or.inr (Or.inl rfl))
  · exact partial_columns_safe.2.2 "TCS" stocksUnparsable finUnparsable rfl rfl rfl

/-- Witness for C10 at concrete inputs: the bound on a concrete snapshot,
the year key of a concrete processed column, and the same-year overwrite
on two columns of calendar year 2023. -/
theorem snapshot_year_keyed_witness :
    ((get_financials "TCS" stocksUnparsable).1.getD []).length ≤ 3 ∧
    2023 = c0.date.year ∧
    buildData (Except.ok b0) [c0, c1] = [(2023, ⟨20, 5, 20⟩)] := by
  refine ⟨snapshot_year_keyed.1 "TCS" stocksUnparsable, ?_, ?_⟩
  · exact snapshot_year_keyed.2.1 (Except.ok b0) c0 2023 ⟨10, 5, 20⟩ processColumn_c0
  · exact snapshot_year_keyed.2.2 (Except.ok b0) c0 c1 2023 ⟨10, 5, 20⟩ ⟨20, 5, 20⟩
      processColumn_c0 processColumn_c1

/-! ### News fetcher (`get_news`, src/app.py lines 140-152) -/

/-- One search result as the code reads it: a dict that may lack the
title or content key (a missing key raises `KeyError`). -/
structure SearchResult where
  title : Option String
  content : Option String
deriving DecidableEq

/-- Behaviour of one `tavily.search` call: the call may raise, may return
a dict without the results key, or returns a list of result dicts. -/
inductive SearchResp where
  | raised (msg : String)
  | respond (results : Option (List SearchResult))
deriving DecidableEq

/-- Python renders `str(KeyError(k))` as the quoted key. -/
def keyErrStr (k : String) : String := sq ++ k ++ sq

/-- The loop of src/app.py lines 147-149 building the context block; a
missing key aborts the whole loop with that `KeyError`, discarding the
partial context. -/
def buildContext (rs : List SearchResult) : Except String String :=
  rs.foldlM (fun acc r =>
    match r.title, r.content with
    | some ti, some co =>
        Except.ok (acc ++ "- " ++ ti ++ ": " ++ co.take 250 ++ "...\n")
    | none, _ => Except.error (keyErrStr "title")
    | some _, none => Except.error (keyErrStr "content")) ""

/-- The fixed query of src/app.py line 145. -/
def newsQuery (ticker : String) : String :=
  ticker ++ " share price news india frauds analysis"

/-- Shallow embedding of `get_news`: issue one search with the fixed
query and a result bound of 3; concatenate titles and 250-character
content prefixes; on any raised error return the News Error string. -/
def get_news (ticker : String) (search : String → Nat → SearchResp) : String :=
  match search (newsQuery ticker) 3 with
  | SearchResp.raised m => "News Error: " ++ m
  | SearchResp.respond none => "News Error: " ++ keyErrStr "results"
  | SearchResp.respond (some rs) =>
      match buildContext rs with
      | Except.ok ctx => ctx
      | Except.error m => "News Error: " ++ m

/-- Claim C6: for every ticker and every behaviour of the search provider
(raised exceptions and malformed results included) the news fetcher
returns a string rather than raising: either the concatenated context
block built from the results of the single three-result request, or a
News Error placeholder string, so generation can proceed either way. -/
theorem news_never_raises (ticker : String) (search : String → Nat → SearchResp) :
    (∃ m, get_news ticker search = "News Error: " ++ m) ∨
    (∃ rs, search (newsQuery ticker) 3 = SearchResp.respond (some rs) ∧
      buildContext rs = Except.ok (get_news ticker search)) := by
  unfold get_news
  cases hs : search (newsQuery ticker) 3 with
  | raised m => left; exact ⟨m, rfl⟩
  | respond o =>
    cases o with
    | none => left; exact ⟨keyErrStr "results", rfl⟩
    | some rs =>
      cases hb : buildContext rs with
      | error m =>
        left
        refine ⟨m, ?_⟩
        simp only [hb]
      | ok ctx =>
        right
        refine ⟨rs, rfl, ?_⟩
        simp only [hb]

/-! ### Model resolver (`get_working_model`, src/app.py lines 57-82) -/

/-- One model record returned by the enumeration call. -/
structure GModel where
  name : String
  supported_generation_methods : List String
deriving DecidableEq

/-- The hand-ranked preference list of src/app.py lines 69-74: flash
variants ranked before pro variants. -/
def preferences : List String :=
  ["models/gemini-1.5-flash", "models/gemini-1.5-flash-latest",
   "models/gemini-1.5-pro", "models/gemini-pro"]

/-- The enumerated model names filtered to generateContent support. -/
def validModels (models : List GModel) : List String :=
  (models.filter fun m =>
    m.supported_generation_methods.contains "generateContent").map GModel.name

/-- Shallow embedding of `get_working_model`: list the models
(`Except.error` = the enumeration raised), filter, take the first
preference present in the filtered set, else the first filtered name;
`none` when nothing is usable. -/
def get_working_model (lm : Except Unit (List GModel)) : Option String :=
  match lm with
  | Except.error _ => none
  | Except.ok models =>
      if (validModels models).isEmpty then none
      else
        match preferences.find? (fun p => (validModels models).contains p) with
        | some p => some p
        | none => (validModels models).head?

/-! ### The application run (src/app.py lines 18-54 and 154-215)

The module-level credential gate and the generate-button handler are
embedded as one function from the environment (credential sources, UI
inputs, provider behaviours) to the ordered list of outbound
interactions and the list of user-visible messages.  Spinners, the
sidebar chrome and the expander layout are presentation only; the
expander contents are kept as a `view` output. -/

/-- Generation-provider errors, distinguishing the rate-limit/quota
signal from any other failure. -/
inductive GenError where
  | rateLimit (msg : String)
  | otherErr (msg : String)
deriving DecidableEq

/-- The text `str(e)` of a generation error. -/
def GenError.message : GenError → String
  | GenError.rateLimit m => m
  | GenError.otherErr m => m

/-- The environment of one script run. -/
structure Env where
  secretsGoogle : Option String
  secretsTavily : Option String
  sidebarGoogle : String
  sidebarTavily : String
  generatePressed : Bool
  tickerRaw : String
  listModels : Except Unit (List GModel)
  stocks : String → Stock
  search : String → Nat → SearchResp
  gen : String → String → Except GenError String

/-- Outbound interactions of one run: client configuration and the calls
made to the external providers. -/
inductive Ev where
  | configure
  | listModelsCall
  | finFetch (ticker : String)
  | searchCall (query : String) (maxResults : Nat)
  | genCall (model : String) (prompt : String)
deriving DecidableEq

/-- User-visible outputs of one run. -/
inductive UI where
  | success (msg : String)
  | warning (msg : String)
  | uiError (msg : String)
  | view (financials news : String)
  | report (ticker text : String)
deriving DecidableEq

/-- Status string of src/app.py line 26. -/
def secretsMsg : String := "✅ Authenticated via Secrets"

/-- Status string of src/app.py line 40. -/
def sidebarMsg : String := "✅ Authenticated via Sidebar"

/-- Status string of src/app.py line 38. -/
def waitingMsg : String := "⚠️ Waiting for Keys..."

/-- Shallow embedding of `load_api_keys` (src/app.py lines 18-40):
secrets first (either key missing raises and falls through), then the
sidebar inputs, where an empty text input is falsy. -/
def load_api_keys (e : Env) : Option String × Option String × String :=
  match e.secretsGoogle, e.secretsTavily with
  | some g, some t => (some g, some t, secretsMsg)
  | _, _ =>
      if e.sidebarGoogle = "" ∨ e.sidebarTavily = "" then (none, none, waitingMsg)
      else (some e.sidebarGoogle, some e.sidebarTavily, sidebarMsg)

/-- Python substring containment, the `"✅" in status_msg` test of
src/app.py line 46. -/
def hasSub (pat : List Char) : List Char → Bool
  | [] => pat.isEmpty
  | c :: t => pat.isPrefixOf (c :: t) || hasSub pat t

/-- Plain rendering of a rational value. -/
def ratStr (q : ℚ) : String := toString q.num ++ "/" ++ toString q.den

/-- Abstraction of `pd.DataFrame(data).to_markdown()` (src/app.py line
135): a textual table with one row per snapshot entry. -/
def dfToMarkdown (d : List (Nat × Entry)) : String :=
  d.foldl (fun acc ye =>
    acc ++ toString ye.1 ++ " | " ++ ratStr ye.2.revenue ++ " | " ++
      ratStr ye.2.pat ++ " | " ++ ratStr ye.2.roe ++ "\n")
    "Year | Revenue(Cr) | PAT(Cr) | ROE\n"

/-- The prompt template of src/app.py lines 186-204. -/
def buildPrompt (ticker finMd news : String) : String :=
  "You are a Senior Equity Research Analyst.\n" ++
  "Write a professional investment report for **" ++ ticker ++ "**.\n\n" ++
  "[REAL DATA SOURCE]\n" ++ finMd ++ "\n\n" ++
  "[NEWS SOURCE]\n" ++ news ++ "\n\n---\n" ++
  "YOUR REPORT STRUCTURE:\n" ++
  "1. **Executive Summary**: What does the company do?\n" ++
  "2. **Financial Health Check**: Analyze the Revenue and ROE trends from the data above.\n" ++
  "3. **Risk Analysis**: Summarize any red flags or negative news found.\n" ++
  "4. **Investment Verdict**: Buy/Sell/Hold rating with specific rationale.\n\n" ++
  "Use clear Markdown formatting with bullet points."

/-- Error message of src/app.py line 167. -/
def noModelMsg : String := "❌ API Error: No working Gemini models found for your key."

/-- Error message of src/app.py line 160. -/
def noTickerMsg : String := "Please enter a ticker symbol."

/-- The uppercased ticker input of src/app.py line 155. -/
def runTicker (e : Env) : String := pyUpperStr e.tickerRaw

/-- The financial markdown block a run would embed in the prompt. -/
def runFinMd (e : Env) : String :=
  dfToMarkdown ((get_financials (runTicker e) e.stocks).1.getD [])

/-- The news block a run would embed in the prompt. -/
def runNews (e : Env) : String := get_news (runTicker e) e.search

/-- The full prompt a run would submit. -/
def runPrompt (e : Env) : String :=
  buildPrompt (runTicker e) (runFinMd e) (runNews e)

/-- Shallow embedding of the module-level flow plus the generate-button
handler (src/app.py lines 42-215). -/
def runApp (e : Env) : List Ev × List UI :=
  if hasSub "✅".data (load_api_keys e).2.2.data then
    if e.generatePressed then
      if runTicker e = "" then
        ([Ev.configure], [UI.success (load_api_keys e).2.2, UI.uiError noTickerMsg])
      else
        match get_working_model e.listModels with
        | none =>
            ([Ev.configure, Ev.listModelsCall],
             [UI.success (load_api_keys e).2.2, UI.uiError noModelMsg])
        | some model_name =>
            match (get_financials (runTicker e) e.stocks).2 with
            | some msg =>
                ([Ev.configure, Ev.listModelsCall,
                  Ev.finFetch (normalizeTicker (runTicker e)),
                  Ev.searchCall (newsQuery (runTicker e)) 3],
                 [UI.success (load_api_keys e).2.2, UI.uiError msg])
            | none =>
                match e.gen model_name (runPrompt e) with
                | Except.ok text =>
                    ([Ev.configure, Ev.listModelsCall,
                      Ev.finFetch (normalizeTicker (runTicker e)),
                      Ev.searchCall (newsQuery (runTicker e)) 3,
                      Ev.genCall model_name (runPrompt e)],
                     [UI.success (load_api_keys e).2.2,
                      UI.view (runFinMd e) (runNews e),
                      UI.report (runTicker e) text])
                | Except.error ge =>
                    ([Ev.configure, Ev.listModelsCall,
                      Ev.finFetch (normalizeTicker (runTicker e)),
                      Ev.searchCall (newsQuery (runTicker e)) 3,
                      Ev.genCall model_name (runPrompt e)],
                     [UI.success (load_api_keys e).2.2,
                      UI.view (runFinMd e) (runNews e),
                      UI.uiError ("AI Generation Failed: " ++ ge.message)])
    else ([Ev.configure], [UI.success (load_api_keys e).2.2])
  else ([], [UI.warning (load_api_keys e).2.2])

/-- Number of search-provider calls in a trace. -/
def countSearch (evs : List Ev) : Nat :=
  (evs.filter fun ev =>
    match ev with | Ev.searchCall _ _ => true | _ => false).length

/-- Number of generation calls in a trace. -/
def countGen (evs : List Ev) : Nat :=
  (evs.filter fun ev =>
    match ev with | Ev.genCall _ _ => true | _ => false).length

/-- Number of model-enumeration calls in a trace. -/
def countListModels (evs : List Ev) : Nat :=
  (evs.filter fun ev =>
    match ev with | Ev.listModelsCall => true | _ => false).length

/-- Claim C8: when either credential is absent from both the secret
store and the sidebar input, the resolver returns (absent, absent,
waiting) and the run halts at the warning: no client is configured and
zero calls are made to the language-model, financial-data and search
providers (the trace is empty). -/
theorem missing_credentials_halt (e : Env)
    (h : (e.secretsGoogle = none ∧ e.sidebarGoogle = "") ∨
         (e.secretsTavily = none ∧ e.sidebarTavily = "")) :
    load_api_keys e = (none, none, waitingMsg) ∧
    runApp e = ([], [UI.warning waitingMsg]) := by
  have hload : load_api_keys e = (none, none, waitingMsg) := by
    unfold load_api_keys
    rcases h with ⟨hg, hs⟩ | ⟨ht, hs⟩
    · cases hgT : e.secretsTavily with
      | none => simp [hg, hgT, hs]
      | some t => simp [hg, hgT, hs]
    · cases hgG : e.secretsGoogle with
      | none => simp [hgG, ht, hs]
      | some g => simp [hgG, ht, hs]
  have hff : hasSub "✅".data waitingMsg.data = false := by decide
  refine ⟨hload, ?_⟩
  unfold runApp
  rw [hload]
  simp [hff]

/-! ### Environments used by the pipeline theorems and witnesses -/

/-- Search provider returning an empty result list. -/
def searchEmpty : String → Nat → SearchResp :=
  fun _ _ => SearchResp.respond (some [])

/-- An income statement whose `empty` flag is set (no data for the ticker). -/
def finEmpty : FinTable := ⟨true, []⟩

/-- Provider behaviour with an empty income statement for every ticker. -/
def stocksEmpty : String → Stock := fun _ => ⟨Except.ok finEmpty, Except.ok b0⟩

/-- A flash model supporting generation. -/
def flashModel : GModel := ⟨"models/gemini-1.5-flash", ["generateContent"]⟩

/-- Environment with no credentials anywhere. -/
def envNoKeys : Env :=
  { secretsGoogle := none, secretsTavily := none,
    sidebarGoogle := "", sidebarTavily := "",
    generatePressed := true, tickerRaw := "TCS",
    listModels := Except.ok [flashModel],
    stocks := stocksEmpty, search := searchEmpty,
    gen := fun _ _ => Except.ok "unused" }

/-- Witness for C8 at the concrete all-absent environment. -/
theorem missing_credentials_halt_witness :
    load_api_keys envNoKeys = (none, none, waitingMsg) ∧
    runApp envNoKeys = ([], [UI.warning waitingMsg]) :=
  missing_credentials_halt envNoKeys (Or.inl ⟨rfl, rfl⟩)

-- Unfolding equation for the resolver on a successful enumeration.
lemma get_working_model_ok (models : List GModel) :
    get_working_model (Except.ok models) =
      if (validModels models).isEmpty = true then none
      else
        match preferences.find? (fun p => (validModels models).contains p) with
        | some p => some p
        | none => (validModels models).head? := rfl

/-- Claim C4: the model resolver filters the enumeration to those models
supporting generateContent and returns the first preference-list name
present in the filtered set (the list ranks flash variants before pro
variants); with no preference match it returns the first filtered name;
a raising enumeration or an empty filtered set yields none, and the
handler then stops after the enumeration call with the API error. -/
theorem model_resolver_spec :
    preferences = ["models/gemini-1.5-flash", "models/gemini-1.5-flash-latest",
      "models/gemini-1.5-pro", "models/gemini-pro"] ∧
    (∀ u : Unit, get_working_model (Except.error u) = none) ∧
    (∀ models, validModels models = [] →
      get_working_model (Except.ok models) = none) ∧
    (∀ models p,
      preferences.find? (fun q => (validModels models).contains q) = some p →
      get_working_model (Except.ok models) = some p) ∧
    (∀ models,
      preferences.find? (fun q => (validModels models).contains q) = none →
      get_working_model (Except.ok models) = (validModels models).head?) ∧
    (∀ e : Env,
      hasSub "✅".data (load_api_keys e).2.2.data = true →
      e.generatePressed = true → ¬ runTicker e = "" →
      get_working_model e.listModels = none →
      runApp e = ([Ev.configure, Ev.listModelsCall],
        [UI.success (load_api_keys e).2.2, UI.uiError noModelMsg])) := by
  refine ⟨rfl, ?_, ?_, ?_, ?_, ?_⟩
  · intro u; rfl
  · intro models hv
    rw [get_working_model_ok, hv]
    rfl
  · intro models p hf
    have hp : ((validModels models).contains p) = true := List.find?_some hf
    have hne : (validModels models).isEmpty = false := by
      cases hv : validModels models with
      | nil => rw [hv] at hp; simp at hp
      | cons a t => rfl
    rw [get_working_model_ok, hne]
    simp only [Bool.false_eq_true, if_false, hf]
  · intro models hf
    rw [get_working_model_ok]
    by_cases hv : (validModels models).isEmpty = true
    · rw [if_pos hv]
      have hnil : validModels models = [] := by
        cases h2 : validModels models with
        | nil => rfl
        | cons a t => rw [h2] at hv; cases hv
      rw [hnil]
      rfl
    · have hv2 : (validModels models).isEmpty = false := by
        cases h2 : (validModels models).isEmpty with
        | false => rfl
        | true => exact absurd h2 hv
      rw [hv2]
      simp only [Bool.false_eq_true, if_false, hf]
  · intro e h1 h2 h3 h4
    unfold runApp
    simp [h1, h2, h3, h4]

/-- A pro model supporting generation. -/
def proModel : GModel := ⟨"models/gemini-1.5-pro", ["generateContent"]⟩

/-- A model without generateContent support. -/
def embedModel : GModel := ⟨"models/embedding-001", ["embedContent"]⟩

/-- A generation-capable model outside the preference list. -/
def customModel : GModel := ⟨"models/custom-gen", ["generateContent"]⟩

/-- Environment whose enumeration exposes no generation-capable model. -/
def envNoModel : Env :=
  { secretsGoogle := some "g", secretsTavily := some "t",
    sidebarGoogle := "", sidebarTavily := "",
    generatePressed := true, tickerRaw := "TCS",
    listModels := Except.ok [embedModel],
    stocks := stocksEmpty, search := searchEmpty,
    gen := fun _ _ => Except.ok "unused" }

/-- Witness for C4 at concrete model lists and a concrete fatal run. -/
theorem model_resolver_witness :
    get_working_model (Except.error ()) = none ∧
    get_working_model (Except.ok [embedModel]) = none ∧
    get_working_model (Except.ok [proModel, flashModel]) =
      some "models/gemini-1.5-flash" ∧
    get_working_model (Except.ok [customModel]) = (validModels [customModel]).head? ∧
    runApp envNoModel = ([Ev.configure, Ev.listModelsCall],
      [UI.success (load_api_keys envNoModel).2.2, UI.uiError noModelMsg]) :=
  ⟨model_resolver_spec.2.1 (),
   model_resolver_spec.2.2.1 [embedModel] (by decide),
   model_resolver_spec.2.2.2.1 [proModel, flashModel] "models/gemini-1.5-flash"
     (by decide),
   model_resolver_spec.2.2.2.2.1 [customModel] (by decide),
   model_resolver_spec.2.2.2.2.2 envNoModel (by decide) rfl (by decide) (by decide)⟩

-- The no-data outcome of `get_financials` for an empty income statement.
lemma get_financials_noData (ticker : String) (stocks : String → Stock)
    (ft : FinTable)
    (h5 : (stocks (normalizeTicker ticker)).financials = Except.ok ft)
    (h6 : ft.empty = true) :
    get_financials ticker stocks = (none, some (noDataMsg (normalizeTicker ticker))) := by
  unfold get_financials
  cases hgen : (stocks (normalizeTicker ticker)).financials with
  | error e => rw [hgen] at h5; cases h5
  | ok fin2 =>
    rw [hgen] at h5
    injection h5 with h52
    subst h52
    simp [h6]

/-- Claim C1 (amended): with an empty income-statement table for the
ticker, the run emits the no-data error naming the normalized ticker and
never invokes the report generator (zero generation calls); however the
handler is not fully fail-fast: the model enumeration and exactly one
news-provider search still happen before the error check. -/
theorem empty_financials_error (e : Env) (mn : String) (ft : FinTable)
    (h1 : hasSub "✅".data (load_api_keys e).2.2.data = true)
    (h2 : e.generatePressed = true)
    (h3 : ¬ runTicker e = "")
    (h4 : get_working_model e.listModels = some mn)
    (h5 : (e.stocks (normalizeTicker (runTicker e))).financials = Except.ok ft)
    (h6 : ft.empty = true) :
    runApp e = ([Ev.configure, Ev.listModelsCall,
        Ev.finFetch (normalizeTicker (runTicker e)),
        Ev.searchCall (newsQuery (runTicker e)) 3],
      [UI.success (load_api_keys e).2.2,
       UI.uiError (noDataMsg (normalizeTicker (runTicker e)))]) ∧
    countGen (runApp e).1 = 0 ∧ countSearch (runApp e).1 = 1 ∧
    countListModels (runApp e).1 = 1 := by
  have hfin := get_financials_noData (runTicker e) e.stocks ft h5 h6
  have hmain : runApp e = ([Ev.configure, Ev.listModelsCall,
      Ev.finFetch (normalizeTicker (runTicker e)),
      Ev.searchCall (newsQuery (runTicker e)) 3],
    [UI.success (load_api_keys e).2.2,
     UI.uiError (noDataMsg (normalizeTicker (runTicker e)))]) := by
    unfold runApp
    simp [h1, h2, h3, h4, hfin]
  refine ⟨hmain, ?_, ?_, ?_⟩ <;> rw [hmain] <;> rfl

/-- Environment of the C1 scenario: ticker FAKECO, credentials present
in secrets, financial provider returning an empty table. -/
def envEmptyFin : Env :=
  { secretsGoogle := some "g", secretsTavily := some "t",
    sidebarGoogle := "", sidebarTavily := "",
    generatePressed := true, tickerRaw := "FAKECO",
    listModels := Except.ok [flashModel],
    stocks := stocksEmpty, search := searchEmpty,
    gen := fun _ _ => Except.ok "unused" }

/-- Counterexample to C1 as stated: in the FAKECO run the no-data error
is shown and the generator is never invoked, but the news provider is
called exactly once — not zero times — because the handler fetches news
before checking the financials error (the model enumeration also runs). -/
theorem empty_financials_counterexample :
    countSearch (runApp envEmptyFin).1 = 1 ∧
    ¬ countSearch (runApp envEmptyFin).1 = 0 ∧
    countGen (runApp envEmptyFin).1 = 0 ∧
    countListModels (runApp envEmptyFin).1 = 1 ∧
    UI.uiError (noDataMsg "FAKECO.NS") ∈ (runApp envEmptyFin).2 := by
  refine ⟨?_, ?_, ?_, ?_, ?_⟩ <;> decide

/-- Witness for the amended C1 at the concrete FAKECO environment. -/
theorem empty_financials_error_witness :
    runApp envEmptyFin = ([Ev.configure, Ev.listModelsCall,
        Ev.finFetch (normalizeTicker (runTicker envEmptyFin)),
        Ev.searchCall (newsQuery (runTicker envEmptyFin)) 3],
      [UI.success (load_api_keys envEmptyFin).2.2,
       UI.uiError (noDataMsg (normalizeTicker (runTicker envEmptyFin)))]) ∧
    countGen (runApp envEmptyFin).1 = 0 ∧
    countSearch (runApp envEmptyFin).1 = 1 ∧
    countListModels (runApp envEmptyFin).1 = 1 :=
  empty_financials_error envEmptyFin "models/gemini-1.5-flash" finEmpty
    (by decide) rfl (by decide) (by decide) rfl rfl

/-- Claim C2 (amended): the generation step is one try/except — exactly
one generation call per run, no retry, no backoff, no fallback model;
any error, rate-limit or not, is caught and surfaced as the generic
failure message, and a success is rendered as the report. -/
theorem generation_single_attempt (e : Env) (mn : String)
    (h1 : hasSub "✅".data (load_api_keys e).2.2.data = true)
    (h2 : e.generatePressed = true)
    (h3 : ¬ runTicker e = "")
    (h4 : get_working_model e.listModels = some mn)
    (h5 : (get_financials (runTicker e) e.stocks).2 = none) :
    countGen (runApp e).1 = 1 ∧
    (runApp e).1 = [Ev.configure, Ev.listModelsCall,
        Ev.finFetch (normalizeTicker (runTicker e)),
        Ev.searchCall (newsQuery (runTicker e)) 3,
        Ev.genCall mn (runPrompt e)] ∧
    (runApp e).2 = [UI.success (load_api_keys e).2.2,
        UI.view (runFinMd e) (runNews e),
        (match e.gen mn (runPrompt e) with
         | Except.ok tx => UI.report (runTicker e) tx
         | Except.error ge =>
             UI.uiError ("AI Generation Failed: " ++ ge.message))] := by
  have h1s : (runApp e).1 = [Ev.configure, Ev.listModelsCall,
      Ev.finFetch (normalizeTicker (runTicker e)),
      Ev.searchCall (newsQuery (runTicker e)) 3,
      Ev.genCall mn (runPrompt e)] := by
    unfold runApp
    cases hg : e.gen mn (runPrompt e) with
    | ok tx => simp [h1, h2, h3, h4, h5, hg]
    | error ge => simp [h1, h2, h3, h4, h5, hg]
  have h2s : (runApp e).2 = [UI.success (load_api_keys e).2.2,
      UI.view (runFinMd e) (runNews e),
      (match e.gen mn (runPrompt e) with
       | Except.ok tx => UI.report (runTicker e) tx
       | Except.error ge =>
           UI.uiError ("AI Generation Failed: " ++ ge.message))] := by
    unfold runApp
    cases hg : e.gen mn (runPrompt e) with
    | ok tx => simp [h1, h2, h3, h4, h5, hg]
    | error ge => simp [h1, h2, h3, h4, h5, hg]
  exact ⟨by rw [h1s]; rfl, h1s, h2s⟩

/-- An income statement with one parsable 2023 column. -/
def finGood : FinTable := ⟨false, [c0]⟩

/-- Provider behaviour serving `finGood` for every ticker. -/
def stocksGood : String → Stock := fun _ => ⟨Except.ok finGood, Except.ok b0⟩

/-- The rate-limit message used in the counterexample run. -/
def rlMsg : String := "429 You exceeded your current quota."

/-- Environment whose generation provider rate-limits every call. -/
def envRateLimited : Env :=
  { secretsGoogle := some "g", secretsTavily := some "t",
    sidebarGoogle := "", sidebarTavily := "",
    generatePressed := true, tickerRaw := "TCS",
    listModels := Except.ok [flashModel],
    stocks := stocksGood, search := searchEmpty,
    gen := fun _ _ => Except.error (GenError.rateLimit rlMsg) }

/-- Environment whose generation provider fails with a non-quota error. -/
def envOtherError : Env :=
  { envRateLimited with gen := fun _ _ => Except.error (GenError.otherErr "boom") }

/-- Counterexample to C2 as stated: under an always-rate-limited
generation provider the handler makes exactly one generation attempt —
not the claimed up-to-three retries — and surfaces the generic failure
message, which is the same message shape a non-quota error produces;
there is no backoff, no fallback-model output and no quota-specific
terminal message. -/
theorem no_retry_counterexample :
    countGen (runApp envRateLimited).1 = 1 ∧
    ¬ countGen (runApp envRateLimited).1 = 3 ∧
    (runApp envRateLimited).2.getLast? =
      some (UI.uiError ("AI Generation Failed: " ++ rlMsg)) ∧
    (runApp envOtherError).2.getLast? =
      some (UI.uiError ("AI Generation Failed: " ++ "boom")) := by
  refine ⟨?_, ?_, ?_, ?_⟩ <;> decide

/-- Environment whose generation provider succeeds. -/
def envGenOk : Env :=
  { envRateLimited with gen := fun _ _ => Except.ok "REPORT TEXT" }

/-- Witness for the amended C2 at a successful concrete run. -/
theorem generation_single_attempt_witness :
    countGen (runApp envGenOk).1 = 1 ∧
    (runApp envGenOk).1 = [Ev.configure, Ev.listModelsCall,
        Ev.finFetch (normalizeTicker (runTicker envGenOk)),
        Ev.searchCall (newsQuery (runTicker envGenOk)) 3,
        Ev.genCall "models/gemini-1.5-flash" (runPrompt envGenOk)] ∧
    (runApp envGenOk).2 = [UI.success (load_api_keys envGenOk).2.2,
        UI.view (runFinMd envGenOk) (runNews envGenOk),
        (match envGenOk.gen "models/gemini-1.5-flash" (runPrompt envGenOk) with
         | Except.ok tx => UI.report (runTicker envGenOk) tx
         | Except.error ge =>
             UI.uiError ("AI Generation Failed: " ++ ge.message))] :=
  generation_single_attempt envGenOk "models/gemini-1.5-flash"
    (by decide) rfl (by decide) (by decide) (by decide)

end EquityResearch
